import Mathlib

/-!
Verification of `src/pipx/interpreter.py` (Python interpreter resolution).

The module is shallowly embedded: every interaction with the operating
system (search-path lookup, symlink test, strict canonicalization,
subprocess invocation, platform flags) is a field of an `Env` record, and
each Python function becomes a Lean function over `Env` returning an
`Except PyErr String` result paired with the list of subprocess command
lines it spawned.  Python exceptions become constructors of `PyErr`:
`resolution` is `InterpreterResolutionError`, `pipx` is a plain
`PipxError`, `os` is a raw `OSError` escaping from
`os.path.realpath(..., strict=True)`, and `subprocess` is a raw
`CalledProcessError`/`FileNotFoundError` from `subprocess.run`.
-/

set_option maxRecDepth 20000

namespace PipxInterp

/-- The trace of subprocess invocations (each entry is one argv list). -/
abbrev Trace := List (List String)

/-- The ambient operating-system behaviour seen by `interpreter.py`.

* `which`          models `shutil.which`
* `islink`         models `os.path.islink`
* `realpath`       models `os.path.realpath(p, strict=True)`; `none` means
                   the call raises `OSError` (target does not exist)
* `runCheck`       models `subprocess.run(cmd, capture_output=True,
                   text=True, check=True)`; `none` means the call raises
                   `CalledProcessError` or `FileNotFoundError`, `some s`
                   is the process stdout
* `runV`           models `subprocess.run([p, "-V"], stdout=PIPE,
                   stderr=DEVNULL, check=False)`: return code and stdout
* `windows`        models the `WINDOWS` platform constant
* `hasVenv`        models `has_venv()` (is the `venv` module importable)
* `sysExecutable`  models `sys.executable` -/
structure Env where
  which : String → Option String
  islink : String → Bool
  realpath : String → Option String
  runCheck : List String → Option String
  runV : String → Int × String
  windows : Bool
  hasVenv : Bool
  sysExecutable : String

/-- Errors that `interpreter.py` can raise. -/
inductive PyErr where
  | resolution (source : String) (version : String)
  | pipx (msg : String)
  | os (path : String)
  | subprocess
  deriving DecidableEq, Repr

/-- Python substring test `needle in hay` (`str.__contains__`). -/
def strIn (needle hay : String) : Bool :=
  decide (needle.data <:+: hay.data)

/-- The hint appended when the version string looks like a path
(literal from `InterpreterResolutionError.__init__`). -/
def pathHint : String :=
  "The provided version looks like a path, but no executable was found there."

/-- The hint appended when the version string looks like a launcher tag
(literal from `InterpreterResolutionError.__init__`; Python concatenates
the two adjacent literals). -/
def launcherHint : String :=
  "The provided version looks like a version for Python Launcher, but \x60py\x60 was not found on PATH."

/-- The directive appended for source `"py launcher"`. -/
def pyListDirective : String :=
  "listed when running \x60py --list\x60."

/-- The common message head built from the f-string plus the adjacent
literal in `InterpreterResolutionError.__init__`. -/
def messageHead (source version : String) : String :=
  "No executable for the provided Python version \x27" ++ version ++
    "\x27 found in " ++ source ++ ". Please make sure the provided version is "

/-- The `"PATH"`-specific continuation of the message. -/
def pathBase : String :=
  "on your PATH or the file path is valid. "

/-- The diagnostic message built by `InterpreterResolutionError.__init__`:
`potentially_path = "/" in version`, `potentially_pylauncher =
"python" not in version and not potentially_path`, then the conditional
appends keyed on `source`. -/
def resolutionMessage (source version : String) : String :=
  let potentiallyPath := strIn "/" version
  let potentiallyPylauncher := !strIn "python" version && !potentiallyPath
  let m := messageHead source version
  let m := if source = "py launcher" then m ++ pyListDirective else m
  if source = "PATH" then
    let m := m ++ pathBase
    let m := if potentiallyPath then m ++ pathHint else m
    if potentiallyPylauncher then m ++ launcherHint else m
  else m

/-- Python truthiness of an `Optional[str]`: `None` and `""` are falsy. -/
def truthy (o : Option String) : Bool :=
  o.getD "" ≠ ""

/-- `version.lstrip("python")`: Python `str.lstrip` with a string argument
removes all leading characters drawn from the character set of the
argument, here `\x7bp, y, t, h, o, n\x7d`. -/
def lstripPython (s : String) : String :=
  String.mk (s.data.dropWhile (fun c => "python".data.contains c))

/-- Python `str.strip()` with no argument: remove leading and trailing
whitespace. -/
def pyStrip (s : String) : String :=
  String.mk
    (((s.data.dropWhile Char.isWhitespace).reverse.dropWhile Char.isWhitespace).reverse)

/-- Python `version.startswith("python")`. -/
def startsWithPython (s : String) : Bool :=
  "python".data.isPrefixOf s.data

/-- The fixed self-report script passed to every probed interpreter. -/
def selfReport : String := "import sys; print(sys.executable)"

/-- `find_py_launcher_python(python_version)`.  Returns the translated
result (`Except.error ()` is a raised `CalledProcessError` or
`FileNotFoundError`), the subprocess trace, and whether the
`logging.warn` diagnostic about stripping `python` was emitted. -/
def find_py_launcher_python (env : Env) (python_version : Option String) :
    Except Unit (Option String) × Trace × Bool :=
  match env.which "py" with
  | none => (.ok none, [], false)
  | some py =>
    if py = "" then (.ok (some py), [], false)
    else
      match python_version with
      | none => (.ok (some py), [], false)
      | some v =>
        if v = "" then (.ok (some py), [], false)
        else
          match env.runCheck [py, "-" ++ (if startsWithPython v then lstripPython v else v),
              "-c", selfReport] with
          | none =>
            (.error (), [[py, "-" ++ (if startsWithPython v then lstripPython v else v),
              "-c", selfReport]], startsWithPython v)
          | some out =>
            (.ok (some (pyStrip out)),
              [[py, "-" ++ (if startsWithPython v then lstripPython v else v),
                "-c", selfReport]], startsWithPython v)

/-- The symlink-aware canonicalization on lines 57 and 69 of the source:
`os.path.realpath(p, strict=True) if not os.path.islink(p) else p`.
A failing strict `realpath` raises a raw `OSError`. -/
def finalizePath (env : Env) (p : String) : Except PyErr String :=
  if env.islink p then .ok p
  else
    match env.realpath p with
    | some r => .ok r
    | none => .error (.os p)

/-- `find_python_interpreter` up to (but excluding) the final return
statement: the value of the local `py_executable` on line 68, or the
error raised before reaching it. -/
def find_python_interpreter_candidate (env : Env) (python_version : String) :
    Except PyErr String × Trace :=
  match find_py_launcher_python env (some python_version) with
  | (.error _, t, _) => (.error (.resolution "py launcher" python_version), t)
  | (.ok pyExe, t, _) =>
    if truthy pyExe then (.ok (pyExe.getD ""), t)
    else
      match env.which python_version with
      | none => (.error (.resolution "PATH" python_version), t)
      | some pp =>
        if pp = "" then (.error (.resolution "PATH" python_version), t)
        else
          match finalizePath env pp with
          | .error e => (.error e, t)
          | .ok rp =>
            match env.runCheck [rp, "-c", selfReport] with
            | none =>
              (.error (.resolution "PATH" python_version), t ++ [[rp, "-c", selfReport]])
            | some out => (.ok (pyStrip out), t ++ [[rp, "-c", selfReport]])

/-- `find_python_interpreter(python_version)`: the candidate of line 68
passed through the final symlink-aware canonicalization of line 69. -/
def find_python_interpreter (env : Env) (python_version : String) :
    Except PyErr String × Trace :=
  match find_python_interpreter_candidate env python_version with
  | (.error e, t) => (.error e, t)
  | (.ok c, t) => (finalizePath env c, t)

/-- The Windows-Store stub detection in `_find_default_windows_python`
(lines 108-122): accept a candidate not containing `"WindowsApps"`
outright; otherwise query it with `-V` and reject it on a non-zero
return code or empty stripped stdout. -/
def windowsStoreCheck (env : Env) (python : String) (t : Trace) :
    Except PyErr String × Trace :=
  if !strIn "WindowsApps" python then (.ok python, t)
  else if (env.runV python).1 ≠ 0 then
    (.error (.pipx "No suitable Python found"), t ++ [[python, "-V"]])
  else if pyStrip (env.runV python).2 = "" then
    (.error (.pipx "No suitable Python found"), t ++ [[python, "-V"]])
  else (.ok python, t ++ [[python, "-V"]])

/-- `_find_default_windows_python()`: trust `sys.executable` when `venv`
is importable, otherwise `find_py_launcher_python() or
shutil.which("python")` followed by the store-stub check. -/
def find_default_windows_python (env : Env) : Except PyErr String × Trace :=
  if env.hasVenv then (.ok env.sysExecutable, [])
  else
    match find_py_launcher_python env none with
    | (.error _, t, _) => (.error .subprocess, t)
    | (.ok launcher, t, _) =>
      match (if truthy launcher then launcher else env.which "python") with
      | none => (.error (.pipx "No suitable Python found"), t)
      | some python => windowsStoreCheck env python t

/-- The candidate computed by `find_py_launcher_python() or
shutil.which("python")` in `_find_default_windows_python`
(using that the launcher probe without a version is `shutil.which("py")`). -/
def windowsDefaultCandidate (env : Env) : Option String :=
  if truthy (env.which "py") then env.which "py" else env.which "python"

/-- `_get_sys_executable()`. -/
def get_sys_executable (env : Env) : Except PyErr String × Trace :=
  if env.windows then find_default_windows_python env
  else (.ok env.sysExecutable, [])

/-- `_get_absolute_python_interpreter(env_python)`. -/
def get_absolute_python_interpreter (env : Env) (env_python : String) :
    Except PyErr String × Trace :=
  match env.which env_python with
  | none =>
    (.error (.pipx ("Default python interpreter \x27" ++ env_python ++ "\x27 is invalid.")), [])
  | some wp =>
    if wp = "" then
      (.error (.pipx ("Default python interpreter \x27" ++ env_python ++ "\x27 is invalid.")), [])
    else (.ok wp, [])

/-- Module-level initialization of `DEFAULT_PYTHON` from
`PIPX_DEFAULT_PYTHON`. -/
def computeDefaultPython (env : Env) (envDefaultPython : Option String) :
    Except PyErr String × Trace :=
  if truthy envDefaultPython then
    get_absolute_python_interpreter env (envDefaultPython.getD "")
  else get_sys_executable env

/-! ### Concrete environments used by witnesses and counterexamples -/

/-- Environment with nothing on the search path at all. -/
def envNoPy : Env where
  which := fun _ => none
  islink := fun _ => false
  realpath := fun s => some s
  runCheck := fun _ => none
  runV := fun _ => (0, "")
  windows := false
  hasVenv := true
  sysExecutable := "/usr/bin/python3"

/-- Environment where only the `py` launcher exists and every
`check=True` subprocess invocation fails. -/
def envPyFail : Env where
  which := fun s => if s == "py" then some "/usr/local/bin/py" else none
  islink := fun _ => false
  realpath := fun s => some s
  runCheck := fun _ => none
  runV := fun _ => (0, "")
  windows := false
  hasVenv := true
  sysExecutable := "/usr/bin/python3"

/-- Environment where the launcher self-report names a symlinked
interpreter inside a virtual environment. -/
def envSymlink : Env where
  which := fun s => if s == "py" then some "/usr/local/bin/py" else none
  islink := fun s => s == "/venv/bin/python"
  realpath := fun _ => none
  runCheck := fun _ => some "/venv/bin/python\n"
  runV := fun _ => (0, "")
  windows := false
  hasVenv := true
  sysExecutable := "/usr/bin/python3"

/-- Environment where the launcher self-report names a non-symlinked
path whose canonical form differs. -/
def envCanon : Env where
  which := fun s => if s == "py" then some "/usr/local/bin/py" else none
  islink := fun _ => false
  realpath := fun s => if s == "/opt/python" then some "/usr/bin/python3.12" else none
  runCheck := fun _ => some "/opt/python\n"
  runV := fun _ => (0, "")
  windows := false
  hasVenv := true
  sysExecutable := "/usr/bin/python3"

/-- Environment identical to `envCanon` except the canonicalization
target does not exist. -/
def envCanonDangling : Env where
  which := fun s => if s == "py" then some "/usr/local/bin/py" else none
  islink := fun _ => false
  realpath := fun _ => none
  runCheck := fun _ => some "/opt/python\n"
  runV := fun _ => (0, "")
  windows := false
  hasVenv := true
  sysExecutable := "/usr/bin/python3"

/-- Environment with no launcher where the version is found on the
search path but its strict canonicalization target does not exist. -/
def envRawOs : Env where
  which := fun s => if s == "3.11" then some "/usr/bin/python3.11" else none
  islink := fun _ => false
  realpath := fun _ => none
  runCheck := fun _ => none
  runV := fun _ => (0, "")
  windows := false
  hasVenv := true
  sysExecutable := "/usr/bin/python3"

/-- Restricted-platform environment without `venv` whose only `python`
on the search path is a Windows-Store stub (its `-V` query exits 9009). -/
def envStoreStub : Env where
  which := fun s =>
    if s == "python" then some "C:/Users/me/AppData/Local/Microsoft/WindowsApps/python.exe"
    else none
  islink := fun _ => false
  realpath := fun s => some s
  runCheck := fun _ => none
  runV := fun _ => (9009, "")
  windows := true
  hasVenv := false
  sysExecutable := "C:/python/python.exe"

/-- Restricted-platform environment without `venv` where the `py`
launcher itself is on the search path. -/
def envPyWin : Env where
  which := fun s => if s == "py" then some "C:/Windows/py.exe" else none
  islink := fun _ => false
  realpath := fun s => some s
  runCheck := fun _ => none
  runV := fun _ => (0, "Python 3.12.1")
  windows := true
  hasVenv := false
  sysExecutable := "C:/python/python.exe"

/-- Environment where the operator override names a non-symlinked path
whose canonical form differs from the path itself. -/
def envOverride : Env where
  which := fun s => if s == "mypython" then some "/opt/python" else none
  islink := fun _ => false
  realpath := fun s => if s == "/opt/python" then some "/usr/bin/python3.12" else none
  runCheck := fun _ => none
  runV := fun _ => (0, "")
  windows := false
  hasVenv := true
  sysExecutable := "/usr/bin/python3"

/-! ### Helper lemmas -/

/-- `find_python_interpreter` is the candidate of line 68 bound through
the final canonicalization of line 69. -/
theorem find_python_interpreter_fst (env : Env) (v : String) :
    (find_python_interpreter env v).1 =
      (find_python_interpreter_candidate env v).1.bind (finalizePath env) := by
  unfold find_python_interpreter
  rcases h : find_python_interpreter_candidate env v with ⟨r, t⟩
  cases r <;> simp [Except.bind]

/-- An error from the canonicalization step is exactly the raw `OSError`
of a non-symlink whose strict `realpath` target does not exist. -/
theorem finalizePath_error (env : Env) (p : String) (e : PyErr)
    (h : finalizePath env p = .error e) :
    e = .os p ∧ env.islink p = false ∧ env.realpath p = none := by
  unfold finalizePath at h
  cases hl : env.islink p with
  | true => rw [hl] at h; simp at h
  | false =>
    rw [hl] at h
    simp only [Bool.false_eq_true, if_false] at h
    cases hr : env.realpath p with
    | some r => rw [hr] at h; simp at h
    | none => rw [hr] at h; simp at h; exact ⟨h.symm, rfl, rfl⟩

/-- `find_py_launcher_python` with no version never spawns a subprocess:
it returns `shutil.which("py")` verbatim. -/
theorem find_py_launcher_python_none (env : Env) :
    find_py_launcher_python env none = (.ok (env.which "py"), [], false) := by
  unfold find_py_launcher_python
  cases h : env.which "py" with
  | none => rfl
  | some py => by_cases hp : py = "" <;> simp [hp]

/-- Without `venv`, `_find_default_windows_python` is the store-stub
check applied to `find_py_launcher_python() or shutil.which("python")`. -/
theorem find_default_windows_python_no_venv (env : Env)
    (h : env.hasVenv = false) :
    find_default_windows_python env =
      (match windowsDefaultCandidate env with
       | none => (.error (.pipx "No suitable Python found"), [])
       | some p => windowsStoreCheck env p []) := by
  unfold find_default_windows_python windowsDefaultCandidate
  rw [find_py_launcher_python_none, h]
  simp

/-- A `"WindowsApps"` candidate whose `-V` query exits non-zero or prints
only whitespace is rejected by the store-stub check. -/
theorem windowsStoreCheck_stub_fatal (env : Env) (p : String) (t : Trace)
    (hw : strIn "WindowsApps" p = true)
    (hq : (env.runV p).1 ≠ 0 ∨ pyStrip (env.runV p).2 = "") :
    windowsStoreCheck env p t =
      (.error (.pipx "No suitable Python found"), t ++ [[p, "-V"]]) := by
  unfold windowsStoreCheck
  rw [hw]
  rcases hq with h1 | h2
  · simp [h1]
  · by_cases hz : (env.runV p).1 ≠ 0
    · simp [hz]
    · simp [hz, h2]

/-- An error result of the candidate phase is a tagged
`InterpreterResolutionError` or a raw strict-`realpath` `OSError`. -/
theorem find_python_interpreter_candidate_error (env : Env) (v : String)
    (e : PyErr) (h : (find_python_interpreter_candidate env v).1 = .error e) :
    (∃ s, e = .resolution s v ∧ (s = "PATH" ∨ s = "py launcher"))
    ∨ (∃ p, e = .os p ∧ env.islink p = false ∧ env.realpath p = none) := by
  rcases hl : find_py_launcher_python env (some v) with ⟨r, t, w⟩
  cases r with
  | error u =>
    simp [find_python_interpreter_candidate, hl] at h
    exact Or.inl ⟨"py launcher", h.symm, Or.inr rfl⟩
  | ok pyExe =>
    by_cases ht : truthy pyExe = true
    · simp [find_python_interpreter_candidate, hl, ht] at h
    · cases hw : env.which v with
      | none =>
        simp [find_python_interpreter_candidate, hl, ht, hw] at h
        exact Or.inl ⟨"PATH", h.symm, Or.inl rfl⟩
      | some pp =>
        by_cases hpp : pp = ""
        · simp [find_python_interpreter_candidate, hl, ht, hw, hpp] at h
          exact Or.inl ⟨"PATH", h.symm, Or.inl rfl⟩
        · cases hf : finalizePath env pp with
          | error e2 =>
            simp [find_python_interpreter_candidate, hl, ht, hw, hpp, hf] at h
            obtain ⟨he, hi, hr⟩ := finalizePath_error env pp e2 hf
            subst h
            exact Or.inr ⟨pp, he, hi, hr⟩
          | ok rp =>
            cases hr : env.runCheck [rp, "-c", selfReport] with
            | none =>
              simp [find_python_interpreter_candidate, hl, ht, hw, hpp, hf, hr] at h
              exact Or.inl ⟨"PATH", h.symm, Or.inl rfl⟩
            | some out =>
              simp [find_python_interpreter_candidate, hl, ht, hw, hpp, hf, hr] at h

/-- `s ++ "" = s` for strings. -/
theorem string_append_empty (s : String) : s ++ "" = s := by
  cases s with
  | mk l => show String.mk (l ++ []) = String.mk l; rw [List.append_nil]

/-! ### Claims -/

/-- C1: if neither the launcher probe nor the search-path probe locates
the requested version, `find_python_interpreter` raises an
`InterpreterResolutionError` whose source is `"PATH"` when the `py`
launcher is absent from the search path, and one whose source is
`"py launcher"` when the launcher is present but its invocation raises;
in both cases the call errors instead of returning any path. -/
theorem find_python_interpreter_not_found_sources (env : Env) (v : String)
    (hv : env.which v = none) :
    (env.which "py" = none →
      (find_python_interpreter env v).1 = .error (.resolution "PATH" v))
    ∧ (∀ py, env.which "py" = some py → py ≠ "" → v ≠ "" →
      env.runCheck [py, "-" ++ (if startsWithPython v then lstripPython v else v),
        "-c", selfReport] = none →
      (find_python_interpreter env v).1 = .error (.resolution "py launcher" v)) := by
  constructor
  · intro hpy
    simp [find_python_interpreter_fst, find_python_interpreter_candidate,
      find_py_launcher_python, hpy, hv, truthy, Except.bind]
  · intro py hpy hne hvne hrun
    simp [find_python_interpreter_fst, find_python_interpreter_candidate,
      find_py_launcher_python, hpy, hne, hvne, hrun, Except.bind]

/-- C1 witness: both hypothesis sets are satisfiable on concrete
environments and yield the stated error sources. -/
theorem find_python_interpreter_not_found_sources_witness :
    (find_python_interpreter envNoPy "3.11").1 =
      .error (.resolution "PATH" "3.11")
    ∧ (find_python_interpreter envPyFail "3.11").1 =
      .error (.resolution "py launcher" "3.11") :=
  ⟨(find_python_interpreter_not_found_sources envNoPy "3.11" rfl).1 rfl,
   (find_python_interpreter_not_found_sources envPyFail "3.11" rfl).2
     "/usr/local/bin/py" rfl (by decide) (by decide) rfl⟩

/-- C2: when the candidate reaching the final canonicalization step of
`find_python_interpreter` is a symlink, the function returns that path
exactly, with no dereferencing applied. -/
theorem find_python_interpreter_symlink_preserved (env : Env) (v c : String)
    (hc : (find_python_interpreter_candidate env v).1 = .ok c)
    (hl : env.islink c = true) :
    (find_python_interpreter env v).1 = .ok c := by
  rw [find_python_interpreter_fst, hc]
  simp [Except.bind, finalizePath, hl]

/-- C2 witness: on `envSymlink` the symlinked candidate is returned
verbatim. -/
theorem find_python_interpreter_symlink_preserved_witness :
    (find_python_interpreter envSymlink "3.11").1 = .ok "/venv/bin/python" :=
  find_python_interpreter_symlink_preserved envSymlink "3.11" "/venv/bin/python"
    (by rfl) (by rfl)

/-- C3: when the candidate reaching the final canonicalization step is
not a symlink, `find_python_interpreter` returns the filesystem's
canonical resolution of it (`os.path.realpath` with `strict=True`), and
if the canonicalization target does not exist the call fails (raising
the strict `OSError`) instead of returning a dangling path. -/
theorem find_python_interpreter_nonsymlink_realpath (env : Env) (v c : String)
    (hc : (find_python_interpreter_candidate env v).1 = .ok c)
    (hl : env.islink c = false) :
    (∀ r, env.realpath c = some r →
      (find_python_interpreter env v).1 = .ok r)
    ∧ (env.realpath c = none →
      (find_python_interpreter env v).1 = .error (.os c)) := by
  constructor
  · intro r hr
    rw [find_python_interpreter_fst, hc]
    simp [Except.bind, finalizePath, hl, hr]
  · intro hr
    rw [find_python_interpreter_fst, hc]
    simp [Except.bind, finalizePath, hl, hr]

/-- C3 witness: the non-symlinked candidate is dereferenced, and a
missing canonicalization target turns into a failure. -/
theorem find_python_interpreter_nonsymlink_realpath_witness :
    (find_python_interpreter envCanon "3.12").1 = .ok "/usr/bin/python3.12"
    ∧ (find_python_interpreter envCanonDangling "3.12").1 =
      .error (.os "/opt/python") :=
  ⟨(find_python_interpreter_nonsymlink_realpath envCanon "3.12" "/opt/python"
      (by rfl) (by rfl)).1 "/usr/bin/python3.12" (by rfl),
   (find_python_interpreter_nonsymlink_realpath envCanonDangling "3.12"
      "/opt/python" (by rfl) (by rfl)).2 (by rfl)⟩

/-- C4 counterexample: on `envRawOs` the version is found on the search
path but its strict canonicalization target does not exist, and
`find_python_interpreter` propagates the raw `OSError` of line 57 —
not an `InterpreterResolutionError` of either source. -/
theorem find_python_interpreter_raw_os_error :
    (find_python_interpreter envRawOs "3.11").1 =
      .error (.os "/usr/bin/python3.11")
    ∧ (PyErr.os "/usr/bin/python3.11" ≠ PyErr.resolution "PATH" "3.11")
    ∧ (PyErr.os "/usr/bin/python3.11" ≠ PyErr.resolution "py launcher" "3.11") :=
  ⟨by rfl, by decide, by decide⟩

/-- C4 (amended): every error of `find_python_interpreter` is either a
typed `InterpreterResolutionError` carrying the requested version and a
source of `"PATH"` or `"py launcher"`, or the raw `OSError` of a strict
`realpath` call on a non-symlink whose target does not exist — the
subprocess failures are always translated, the canonicalization
failures never are. -/
theorem find_python_interpreter_error_characterization (env : Env)
    (v : String) (e : PyErr)
    (h : (find_python_interpreter env v).1 = .error e) :
    (∃ s, e = .resolution s v ∧ (s = "PATH" ∨ s = "py launcher"))
    ∨ (∃ p, e = .os p ∧ env.islink p = false ∧ env.realpath p = none) := by
  rw [find_python_interpreter_fst] at h
  cases hc : (find_python_interpreter_candidate env v).1 with
  | error e0 =>
    rw [hc] at h
    simp [Except.bind] at h
    subst h
    exact find_python_interpreter_candidate_error env v e0 hc
  | ok c =>
    rw [hc] at h
    simp [Except.bind] at h
    exact Or.inr ⟨c, (finalizePath_error env c e h).1, (finalizePath_error env c e h).2⟩

/-- C4 witness: the characterization applied to the raw-`OSError`
environment. -/
theorem find_python_interpreter_error_characterization_witness :
    (∃ s, PyErr.os "/usr/bin/python3.11" = .resolution s "3.11"
      ∧ (s = "PATH" ∨ s = "py launcher"))
    ∨ (∃ p, PyErr.os "/usr/bin/python3.11" = .os p
      ∧ envRawOs.islink p = false ∧ envRawOs.realpath p = none) :=
  find_python_interpreter_error_characterization envRawOs "3.11"
    (.os "/usr/bin/python3.11") (by rfl)

/-- C5: on a non-Windows platform `_get_sys_executable` returns the
running interpreter's own `sys.executable` and spawns no subprocess. -/
theorem get_sys_executable_non_windows (env : Env)
    (h : env.windows = false) :
    get_sys_executable env = (.ok env.sysExecutable, []) := by
  simp [get_sys_executable, h]

/-- C5 witness: concrete non-Windows environment. -/
theorem get_sys_executable_non_windows_witness :
    get_sys_executable envNoPy = (.ok "/usr/bin/python3", []) :=
  get_sys_executable_non_windows envNoPy rfl

/-- C6: without `venv`, when the default-resolution candidate contains
`"WindowsApps"` and its `-V` query exits non-zero or prints empty
(stripped) output, `_find_default_windows_python` raises the fatal
`"No suitable Python found"` error instead of returning the candidate. -/
theorem find_default_windows_python_store_stub (env : Env) (p : String)
    (hv : env.hasVenv = false)
    (hc : windowsDefaultCandidate env = some p)
    (hw : strIn "WindowsApps" p = true)
    (hq : (env.runV p).1 ≠ 0 ∨ pyStrip (env.runV p).2 = "") :
    (find_default_windows_python env).1 =
      .error (.pipx "No suitable Python found") := by
  rw [find_default_windows_python_no_venv env hv, hc]
  simp [windowsStoreCheck_stub_fatal env p [] hw hq]

/-- C6 witness: the store-stub environment (exit code 9009, empty
output) is rejected. -/
theorem find_default_windows_python_store_stub_witness :
    (find_default_windows_python envStoreStub).1 =
      .error (.pipx "No suitable Python found") :=
  find_default_windows_python_store_stub envStoreStub
    "C:/Users/me/AppData/Local/Microsoft/WindowsApps/python.exe"
    rfl (by rfl) (by decide) (Or.inl (by decide))

/-- C7 counterexample: for the version `"pythonn3.9"` (the literal
`"python"` followed by `"n3.9"`), the launcher is invoked with the flag
`"-3.9"` — `str.lstrip` removed the extra `n` as well — although
stripping exactly the leading literal `"python"` token would leave
`"n3.9"`. -/
theorem find_py_launcher_flag_counterexample :
    (find_py_launcher_python envPyFail (some "pythonn3.9")).2.1 =
      [["/usr/local/bin/py", "-3.9", "-c", selfReport]]
    ∧ "pythonn3.9".data = "python".data ++ "n3.9".data
    ∧ ("-3.9" : String) ≠ "-n3.9" :=
  ⟨by rfl, by decide, by decide⟩

/-- C7 (amended): for a version string beginning with `"python"`, the
launcher probe invokes the launcher with the version flag obtained by
removing all leading characters drawn from the character set
`\x7bp, y, t, h, o, n\x7d` (Python `str.lstrip("python")` semantics, which
coincides with stripping the literal token exactly when the remainder
does not begin with one of those characters), and it emits the
diagnostic warning while doing so. -/
theorem find_py_launcher_flag (env : Env) (py v : String)
    (hpy : env.which "py" = some py) (hne : py ≠ "") (hv : v ≠ "")
    (hs : startsWithPython v = true) :
    (find_py_launcher_python env (some v)).2 =
      ([[py, "-" ++ lstripPython v, "-c", selfReport]], true) := by
  cases hr : env.runCheck [py, "-" ++ lstripPython v, "-c", selfReport] with
  | none => simp [find_py_launcher_python, hpy, hne, hv, hs, hr]
  | some out => simp [find_py_launcher_python, hpy, hne, hv, hs, hr]

/-- C7 witness: the flag for `"python3.11"` is `"-3.11"`, with the
diagnostic emitted. -/
theorem find_py_launcher_flag_witness :
    (find_py_launcher_python envPyFail (some "python3.11")).2 =
      ([["/usr/local/bin/py", "-3.11", "-c", selfReport]], true) := by
  simpa using find_py_launcher_flag envPyFail "/usr/local/bin/py" "python3.11"
    (by rfl) (by decide) (by decide) (by rfl)

/-- C8 counterexample: the explicit override entry point
`_get_absolute_python_interpreter` returns the path found on the search
path without the symlink-aware canonicalization step: on `envOverride`
it succeeds with `/opt/python` although that path is not a symlink and
canonicalizes to `/usr/bin/python3.12`. -/
theorem override_skips_canonicalization :
    (get_absolute_python_interpreter envOverride "mypython").1 =
      .ok "/opt/python"
    ∧ finalizePath envOverride "/opt/python" = .ok "/usr/bin/python3.12"
    ∧ ("/opt/python" : String) ≠ "/usr/bin/python3.12" :=
  ⟨by rfl, by rfl, by decide⟩

/-- C8 (amended): every successful result of `find_python_interpreter`
(whether produced by the launcher probe or the path probe) passes
through the final symlink-aware canonicalization step; the explicit
override entry point instead returns the found path unchanged. -/
theorem find_python_interpreter_canonicalizes (env : Env) (v r : String) :
    ((find_python_interpreter env v).1 = .ok r →
      ∃ c, (find_python_interpreter_candidate env v).1 = .ok c
        ∧ finalizePath env c = .ok r)
    ∧ (∀ p ep, env.which ep = some p → p ≠ "" →
      (get_absolute_python_interpreter env ep).1 = .ok p) := by
  constructor
  · intro h
    rw [find_python_interpreter_fst] at h
    cases hc : (find_python_interpreter_candidate env v).1 with
    | error e => rw [hc] at h; simp [Except.bind] at h
    | ok c =>
      rw [hc] at h
      simp [Except.bind] at h
      exact ⟨c, rfl, h⟩
  · intro p ep hep hne
    simp [get_absolute_python_interpreter, hep, hne]

/-- C8 witness: a successful `find_python_interpreter` result factors
through `finalizePath`, and a successful override does not. -/
theorem find_python_interpreter_canonicalizes_witness :
    (∃ c, (find_python_interpreter_candidate envCanon "3.12").1 = .ok c
      ∧ finalizePath envCanon c = .ok "/usr/bin/python3.12")
    ∧ (get_absolute_python_interpreter envOverride "mypython").1 =
      .ok "/opt/python" :=
  ⟨(find_python_interpreter_canonicalizes envCanon "3.12" "/usr/bin/python3.12").1
      (by rfl),
   (find_python_interpreter_canonicalizes envOverride "" "").2
      "/opt/python" "mypython" (by rfl) (by decide)⟩

/-- C9: on the restricted platform without `venv`, when the `py`
launcher is on the search path (and its path does not contain
`"WindowsApps"`), `find_py_launcher_python()` with no version returns
`shutil.which("py")` itself without spawning any subprocess, and
`_find_default_windows_python` returns that launcher path — not a
Python interpreter path — again with an empty subprocess trace. -/
theorem windows_default_py_launcher_path (env : Env) (p : String)
    (hv : env.hasVenv = false) (hpy : env.which "py" = some p)
    (hne : p ≠ "") (hw : strIn "WindowsApps" p = false) :
    find_py_launcher_python env none = (.ok (some p), [], false)
    ∧ find_default_windows_python env = (.ok p, []) := by
  constructor
  · rw [find_py_launcher_python_none, hpy]
  · rw [find_default_windows_python_no_venv env hv]
    have hc : windowsDefaultCandidate env = some p := by
      simp [windowsDefaultCandidate, hpy, truthy, hne]
    rw [hc]
    simp [windowsStoreCheck, hw]

/-- C9 witness: on `envPyWin` the default resolver returns the launcher
executable itself. -/
theorem windows_default_py_launcher_path_witness :
    find_py_launcher_python envPyWin none =
      (.ok (some "C:/Windows/py.exe"), [], false)
    ∧ find_default_windows_python envPyWin = (.ok "C:/Windows/py.exe", []) :=
  windows_default_py_launcher_path envPyWin "C:/Windows/py.exe"
    rfl (by rfl) (by decide) (by decide)

/-- C10 counterexample: with the version string equal to the
looks-like-a-path hint sentence itself — which contains no `"/"` — the
`"PATH"` diagnostic message does contain that hint as a substring
(inside the quoted version), so "message contains the path hint iff the
version contains `/`" is false as a substring statement. -/
theorem resolution_message_hint_not_iff :
    strIn "/" pathHint = false
    ∧ strIn pathHint (resolutionMessage "PATH" pathHint) = true :=
  ⟨by decide, by decide⟩

/-- C10 (amended): the `"PATH"` diagnostic message is exactly the
message head and base with the looks-like-a-path hint appended iff the
version contains `"/"` and the looks-like-a-launcher-tag hint appended
iff the version contains neither `"python"` nor `"/"`; the
`"py launcher"` message is exactly the head followed by the
`py --list` directive, with neither hint appended.  (Substring
containment of a hint can additionally arise only from the version text
itself, which is interpolated into the head.) -/
theorem resolution_message_structure (v : String) :
    resolutionMessage "PATH" v =
      messageHead "PATH" v ++ pathBase
        ++ (if strIn "/" v then pathHint else "")
        ++ (if !strIn "python" v && !strIn "/" v then launcherHint else "")
    ∧ resolutionMessage "py launcher" v =
      messageHead "py launcher" v ++ pyListDirective := by
  constructor
  · cases h1 : strIn "/" v with
    | true => cases h2 : strIn "python" v with
      | true => simp [resolutionMessage, h1, h2, string_append_empty]
      | false => simp [resolutionMessage, h1, h2, string_append_empty]
    | false => cases h2 : strIn "python" v with
      | true => simp [resolutionMessage, h1, h2, string_append_empty]
      | false => simp [resolutionMessage, h1, h2, string_append_empty]
  · simp [resolutionMessage]

end PipxInterp
